import Mathlib

/-!
Shallow embedding of the text-adventure engine (`text_adventure_engine.py`).

Modelling conventions:
* Python `dict`s (room connections, the world mapping) become association
  lists in insertion order; lookup is first-match, matching `dict` key
  uniqueness as maintained by `add_connection`.
* Each Python `print(s)` call is recorded as one element `s` of an output
  list (the leading `"\n"` that the source writes explicitly is kept).
* `self.current_room` holds a `Room` value, exactly as the Python object
  reference does; `self.rooms[key]` is a fallible lookup, so operations
  that perform it return `Option` (`none` models an uncaught `KeyError`).
-/

/-- Python-style lower-casing of a string: `str.lower`, character-wise. -/
def pyLower (s : String) : String := ⟨s.data.map Char.toLower⟩

/-- Strip whitespace from both ends of a character list (`str.strip`). -/
def pyStripList (l : List Char) : List Char :=
  (((l.dropWhile Char.isWhitespace).reverse).dropWhile Char.isWhitespace).reverse

/-- Python `str.strip`: remove leading and trailing whitespace. -/
def pyStrip (s : String) : String := ⟨pyStripList s.data⟩

/-- Helper for `pyWords`: accumulate the current word (reversed) while
scanning, emitting a word at each whitespace boundary. -/
def splitWsAux : List Char → List Char → List (List Char)
  | [], acc => if acc.isEmpty then [] else [acc.reverse]
  | c :: cs, acc =>
    if c.isWhitespace then
      if acc.isEmpty then splitWsAux cs [] else acc.reverse :: splitWsAux cs []
    else
      splitWsAux cs (c :: acc)

/-- Python `str.split()` with no argument: split on runs of whitespace,
never producing empty words. -/
def pyWords (s : String) : List String := (splitWsAux s.data []).map fun l => ⟨l⟩

/-- A location in the game world (`class Room`): display name, description,
exits as an insertion-ordered direction-to-key mapping, terminal flag. -/
structure Room where
  name : String
  description : String
  connections : List (String × String)
  is_end : Bool
deriving DecidableEq, Repr

/-- `Room.add_connection`: dict assignment `self.connections[direction] =
target_room` — overwrite if the direction is present, else append. -/
def Room.add_connection (r : Room) (direction target_room : String) : Room :=
  if r.connections.any (fun p => p.1 = direction) then
    { r with connections :=
        r.connections.map fun p => if p.1 = direction then (direction, target_room) else p }
  else
    { r with connections := r.connections ++ [(direction, target_room)] }

/-- `Room.get_description`: header, description, and the comma-joined exit
directions in declaration order. -/
def Room.get_description (r : Room) : String :=
  "--- " ++ r.name ++ " ---\n" ++ r.description ++ "\n" ++
    "Available exits: " ++ String.intercalate ", " (r.connections.map Prod.fst)

/-- First-match lookup in an association list: Python `d[k]`-style access
returning `none` where Python raises `KeyError`. -/
def lookupConn (l : List (String × String)) (d : String) : Option String :=
  (l.find? fun p => p.1 = d).map Prod.snd

namespace AdventureGame

/-- `AdventureGame._create_world`: builds the four rooms, wires their
connections via `add_connection`, and returns the key-to-room mapping in
the source's dict-literal order. No validation of exit targets occurs. -/
def create_world : List (String × Room) :=
  let r1 : Room :=
    ((Room.mk "Entrance Hall"
        "You are in a dusty, dimly lit hall. There is a suit of armor by the north wall."
        [] false).add_connection "north" "dark_corridor").add_connection "east" "treasure_chamber"
  let r2 : Room :=
    Room.mk "Treasure Chamber"
      "A small chamber filled with glittering gold and ancient artifacts! You win!"
      [] true
  let r3 : Room :=
    ((Room.mk "Dark Corridor"
        "A narrow, dark corridor. It smells faintly of mildew."
        [] false).add_connection "south" "start_hall").add_connection "west" "storage_room"
  let r4 : Room :=
    (Room.mk "Storage Room"
        "Boxes and old crates are stacked high. A small key is visible beneath a loose floorboard."
        [] false).add_connection "east" "dark_corridor"
  [("start_hall", r1), ("treasure_chamber", r2), ("dark_corridor", r3), ("storage_room", r4)]

/-- Mutable session state of `class AdventureGame`: the world mapping, the
current room object, and the running flag. -/
structure GameState where
  rooms : List (String × Room)
  current_room : Room
  is_running : Bool
deriving DecidableEq, Repr

/-- Lookup `self.rooms[key]` (`none` models an uncaught `KeyError`). -/
def getRoom (rooms : List (String × Room)) (key : String) : Option Room :=
  (rooms.find? fun p => p.1 = key).map Prod.snd

/-- `AdventureGame.__init__`: world built by `_create_world`, current room
set to `self.rooms[start_hall]`, running flag true. The lookup of the
start key succeeds on the concrete world, so the initial state is total. -/
def initState : GameState :=
  { rooms := create_world
    current_room := (getRoom create_world "start_hall").getD (Room.mk "" "" [] false)
    is_running := true }

/-- `AdventureGame.look`: print a newline followed by the current room's
full description; the state is untouched. -/
def look (g : GameState) : GameState × List String :=
  (g, ["\n" ++ g.current_room.get_description])

/-- `AdventureGame.quit_game`: clear the running flag and print the
farewell message. -/
def quit_game (g : GameState) : GameState × List String :=
  ({ g with is_running := false }, ["\nThank you for playing. Goodbye!"])

/-- `AdventureGame._handle_move`: if `direction` keys into the current
room's connections, re-enter through `self.rooms[next_room_key]`
(fallible; `none` is the `KeyError` path); a terminal target prints its
description and stops the session, a normal target is shown via `look`;
an absent direction prints the rejection message and changes nothing. -/
def handle_move (g : GameState) (direction : String) : Option (GameState × List String) :=
  match lookupConn g.current_room.connections direction with
  | some next_room_key =>
    match getRoom g.rooms next_room_key with
    | some r =>
      let g' : GameState := { g with current_room := r }
      if r.is_end then
        some ({ g' with is_running := false }, ["\n" ++ r.get_description])
      else
        some (look g')
    | none => none
  | none => some (g, ["You cannot go that way."])

/-- The rejection line printed by `_handle_move` for an absent direction. -/
def cannotGoMsg : String := "You cannot go that way."

/-- The message printed for an unrecognized command: it interpolates the
normalized (lower-cased, stripped) command, not the raw input. -/
def unknownMsg (cmd : String) : String :=
  "Unknown command: \x27" ++ cmd ++ "\x27. Try \x27go north\x27 or \x27quit\x27."

/-- Dispatch of `AdventureGame.parse_command` after line 69's normalization:
split the normalized command into whitespace-separated tokens and branch on
the first token; `go` takes the last token as the direction. Empty input is
a silent no-op. -/
def parse_command_core (g : GameState) (cmd : String) : Option (GameState × List String) :=
  match pyWords cmd with
  | [] => some (g, [])
  | verb :: rest =>
    if verb = "north" ∨ verb = "south" ∨ verb = "east" ∨ verb = "west" ∨ verb = "go" then
      let direction := if verb = "go" then (verb :: rest).getLast (by simp) else verb
      handle_move g direction
    else if verb = "quit" ∨ verb = "exit" then
      some (quit_game g)
    else if verb = "look" ∨ verb = "l" then
      some (look g)
    else
      some (g, [unknownMsg cmd])

/-- `AdventureGame.parse_command`: normalize the raw line exactly as the
source does (`command.lower().strip()`), then dispatch. -/
def parse_command (g : GameState) (command : String) : Option (GameState × List String) :=
  parse_command_core g (pyStrip (pyLower command))

/-- The interaction loop of `AdventureGame.play` over a finite list of
input lines: while running, read a line (stripped), skip empty lines,
otherwise dispatch through `parse_command`; exhausting the input while
still running raises `EOFError`, which the loop catches with `quit_game`.
`none` propagates an uncaught `KeyError` from a move. -/
def playLoop (g : GameState) : List String → Option (GameState × List String)
  | [] => if g.is_running then some (quit_game g) else some (g, [])
  | line :: rest =>
    if g.is_running then
      let user_input := pyStrip line
      if user_input.isEmpty then playLoop g rest
      else
        match parse_command g user_input with
        | some (g', out) => (playLoop g' rest).map fun p => (p.1, out ++ p.2)
        | none => none
    else
      some (g, [])

/-- Graph-closure check on a world mapping: every exit target key of every
room resolves to some room key present in the same mapping. -/
def worldClosed (rooms : List (String × Room)) : Bool :=
  rooms.all fun kr => kr.2.connections.all fun c => rooms.any fun kr2 => kr2.1 = c.2

/-- Membership of a room object among the values of a world mapping. -/
def roomInWorld (rooms : List (String × Room)) (r : Room) : Bool :=
  rooms.any fun kr => kr.2 = r

end AdventureGame

/-- The `Room` value of the terminal Treasure Chamber as `_create_world`
builds it (no exits, terminal flag set). -/
def treasureRoom : Room :=
  Room.mk "Treasure Chamber"
    "A small chamber filled with glittering gold and ancient artifacts! You win!"
    [] true

/-- The `Room` value of the Dark Corridor as `_create_world` builds it. -/
def darkCorridorRoom : Room :=
  ((Room.mk "Dark Corridor"
      "A narrow, dark corridor. It smells faintly of mildew."
      [] false).add_connection "south" "start_hall").add_connection "west" "storage_room"

/-- A room built with the source's own `Room` constructor and
`add_connection`, whose single exit targets a key that no world below
contains: a dangling exit is expressible and nothing rejects it. -/
def danglingRoom : Room :=
  (Room.mk "Test Hall" "A hall whose only exit leads nowhere." [] false).add_connection
    "north" "nowhere"

/-- A session over a one-room world containing a dangling exit; its
construction succeeds (the constructor has no failure path). -/
def danglingState : AdventureGame.GameState :=
  { rooms := [("test_hall", danglingRoom)]
    current_room := danglingRoom
    is_running := true }

/-- Substring test on strings: some suffix of `hay` starts with `needle`. -/
def strContainsSub (hay needle : String) : Bool :=
  hay.data.tails.any fun t => needle.data.isPrefixOf t

namespace AdventureGame

/-- C1 (amended): every exit target key in the world returned by
`_create_world` resolves to a room present in the same mapping — the
concrete world graph is closed. (`_create_world` performs no check of
this; see the counterexample theorem for the runtime surfacing of a
dangling exit.) -/
theorem create_world_graph_closed : worldClosed create_world = true := by decide

/-- C1 counterexample: a world holding a dangling exit is built with the
source's own `Room` constructor and `add_connection` with no failure —
nothing detects the dangling reference at construction time — and the
dangling exit surfaces during play as an unhandled `KeyError` (`none`)
when `_handle_move` evaluates `self.rooms[next_room_key]`. -/
theorem dangling_exit_surfaces_at_runtime :
    worldClosed danglingState.rooms = false ∧
    handle_move danglingState "north" = none ∧
    playLoop danglingState ["north"] = none := by decide

/-- C2: moving into a room whose terminal flag is set reassigns the
current room, emits exactly that room's full description, and clears the
running flag; concretely, issuing `east` from the starting Entrance Hall
moves to the terminal Treasure Chamber, prints its description, and ends
the session. -/
theorem move_to_terminal_room_ends_session :
    (∀ (g : GameState) (d k : String) (r : Room),
      lookupConn g.current_room.connections d = some k →
      getRoom g.rooms k = some r →
      r.is_end = true →
      handle_move g d =
        some ({ g with current_room := r, is_running := false },
          ["\n" ++ r.get_description])) ∧
    parse_command initState "east" =
      some ({ initState with current_room := treasureRoom, is_running := false },
        ["\n" ++ treasureRoom.get_description]) := by
  constructor
  · intro g d k r hconn hroom hend
    simp [handle_move, hconn, hroom, hend]
  · decide

/-- C2 witness: the general terminal-move theorem instantiated at the
initial state with direction `east`, target key `treasure_chamber`. -/
theorem move_to_terminal_room_ends_session_witness :
    handle_move initState "east" =
      some ({ initState with current_room := treasureRoom, is_running := false },
        ["\n" ++ treasureRoom.get_description]) :=
  move_to_terminal_room_ends_session.1 initState "east" "treasure_chamber" treasureRoom
    (by decide) (by decide) rfl

/-- C3: for every session state and every direction string absent from the
current room's exits, the move leaves the whole state (position and
running flag) unchanged and emits exactly the rejection message. -/
theorem invalid_direction_rejected (g : GameState) (direction : String)
    (h : lookupConn g.current_room.connections direction = none) :
    handle_move g direction = some (g, [cannotGoMsg]) := by
  simp [handle_move, h, cannotGoMsg]

/-- C3 witness: `south` is not an exit of the Entrance Hall, so the move
is rejected with the exact message and the state is untouched. -/
theorem invalid_direction_rejected_witness :
    handle_move initState "south" = some (initState, [cannotGoMsg]) :=
  invalid_direction_rejected initState "south" (by decide)

/-- C4: once the running flag is false, the interaction loop submits no
further action: for any list of pending input lines the state is returned
unchanged and no output at all is produced. -/
theorem ended_session_ignores_all_input (g : GameState) (inputs : List String)
    (h : g.is_running = false) :
    playLoop g inputs = some (g, []) := by
  cases inputs <;> simp [playLoop, h]

/-- C4 witness: after quitting from the initial state, feeding further
lines `north`, `look` changes nothing and emits nothing. -/
theorem ended_session_ignores_all_input_witness :
    playLoop (quit_game initState).1 ["north", "look"] = some ((quit_game initState).1, []) :=
  ended_session_ignores_all_input (quit_game initState).1 ["north", "look"] rfl

/-- C5: a command whose first token is `go` moves using the last
whitespace-separated token: `go north` is interpreted exactly as `north`
(for every state), `go quickly north` also moves `north`, and bare `go`
moves in direction `go`, which matches no exit of any room of the world;
concretely from the Entrance Hall, `go north` reaches the Dark Corridor
showing its description and bare `go` is rejected. -/
theorem go_takes_last_token :
    (∀ g : GameState, parse_command g "go north" = parse_command g "north") ∧
    (∀ g : GameState, parse_command g "go quickly north" = handle_move g "north") ∧
    (∀ g : GameState, parse_command g "go" = handle_move g "go") ∧
    (create_world.all fun kr => (lookupConn kr.2.connections "go").isNone) = true ∧
    parse_command initState "go north" =
      some ({ initState with current_room := darkCorridorRoom },
        ["\n" ++ darkCorridorRoom.get_description]) ∧
    parse_command initState "go" = some (initState, [cannotGoMsg]) :=
  ⟨fun _ => rfl, fun _ => rfl, fun _ => rfl, by decide, by decide, by decide⟩

/-- C6: `quit` and `exit` dispatch to `quit_game` from every state, which
unconditionally clears the running flag and prints the farewell message;
and exhausting the input (`EOFError` on the blocking read) is handled by
the loop identically to an explicit `quit` line, farewell included. -/
theorem quit_exit_and_eof_end_session (g : GameState) :
    parse_command g "quit" = some (quit_game g) ∧
    parse_command g "exit" = some (quit_game g) ∧
    (quit_game g).1.is_running = false ∧
    (quit_game g).2 = ["\nThank you for playing. Goodbye!"] ∧
    playLoop g [] = playLoop g ["quit"] := by
  refine ⟨rfl, rfl, rfl, rfl, ?_⟩
  cases hr : g.is_running
  · simp [playLoop, hr]
  · simp [playLoop, hr]
    rfl

/-- C8: `look` and `l` are interpreted identically in every state; the
look action returns the state itself untouched (so position and running
flag survive any number of repetitions) and its output is exactly the
current room's description, hence identical on every repetition. -/
theorem look_and_l_equivalent_and_idempotent (g : GameState) :
    parse_command g "look" = parse_command g "l" ∧
    parse_command g "look" = some (g, ["\n" ++ g.current_room.get_description]) ∧
    (look g).1 = g :=
  ⟨rfl, rfl, rfl⟩

end AdventureGame

/-- Lower-casing a character neither creates nor destroys whitespace. -/
theorem isWhitespace_toLower (c : Char) : c.toLower.isWhitespace = c.isWhitespace := by
  simp only [Char.toLower]
  split
  · rename_i h
    obtain ⟨h1, h2⟩ := h
    have t1 : c ≠ ' ' := fun e => absurd (e ▸ h1) (by decide)
    have t2 : c ≠ '\t' := fun e => absurd (e ▸ h1) (by decide)
    have t3 : c ≠ '\r' := fun e => absurd (e ▸ h1) (by decide)
    have t4 : c ≠ '\n' := fun e => absurd (e ▸ h1) (by decide)
    have hws : c.isWhitespace = false := by
      simp [Char.isWhitespace, t1, t2, t3, t4]
    rw [hws]
    generalize c.toNat = n at h1 h2
    interval_cases n <;> decide
  · rfl

/-- Dropping leading whitespace commutes with character-wise lower-casing. -/
theorem dropWhile_ws_map_toLower (l : List Char) :
    (l.map Char.toLower).dropWhile Char.isWhitespace =
      (l.dropWhile Char.isWhitespace).map Char.toLower := by
  rw [List.dropWhile_map]
  rw [show (Char.isWhitespace ∘ Char.toLower) = Char.isWhitespace from
    funext fun c => isWhitespace_toLower c]

/-- Stripping surrounding whitespace commutes with lower-casing at the
character-list level. -/
theorem pyStripList_map_toLower (l : List Char) :
    pyStripList (l.map Char.toLower) = (pyStripList l).map Char.toLower := by
  unfold pyStripList
  rw [dropWhile_ws_map_toLower, ← List.map_reverse, dropWhile_ws_map_toLower,
    ← List.map_reverse]

/-- Stripping surrounding whitespace commutes with lower-casing: the
source's `lower().strip()` equals the spec's trim-then-lower-case order. -/
theorem pyStrip_pyLower_comm (s : String) :
    pyStrip (pyLower s) = pyLower (pyStrip s) := by
  show (⟨pyStripList (s.data.map Char.toLower)⟩ : String) =
    ⟨(pyStripList s.data).map Char.toLower⟩
  rw [pyStripList_map_toLower]

namespace AdventureGame

/-- C7: two raw input lines that agree after trimming surrounding
whitespace and lower-casing are processed identically from every session
state — same resulting state and same output. -/
theorem command_interpretation_case_insensitive (g : GameState) (a b : String)
    (h : pyLower (pyStrip a) = pyLower (pyStrip b)) :
    parse_command g a = parse_command g b := by
  unfold parse_command
  rw [pyStrip_pyLower_comm, pyStrip_pyLower_comm, h]

/-- C7 witness: `"  NORTH  "` and `"north"` agree after trim/lower-case
and are processed identically from the initial state. -/
theorem command_interpretation_case_insensitive_witness :
    pyLower (pyStrip "  NORTH  ") = pyLower (pyStrip "north") ∧
    parse_command initState "  NORTH  " = parse_command initState "north" :=
  ⟨by decide, command_interpretation_case_insensitive initState "  NORTH  " "north" (by decide)⟩

/-- C9 (amended): any non-empty input whose first token is none of the
recognized verbs is answered, with the state untouched, by the
unknown-command message, which echoes the normalized (lower-cased,
trimmed) input together with the usage hint. -/
theorem unrecognized_input_echoes_normalized (g : GameState) (command v : String)
    (rest : List String)
    (hparts : pyWords (pyStrip (pyLower command)) = v :: rest)
    (h1 : ¬(v = "north" ∨ v = "south" ∨ v = "east" ∨ v = "west" ∨ v = "go"))
    (h2 : ¬(v = "quit" ∨ v = "exit"))
    (h3 : ¬(v = "look" ∨ v = "l")) :
    parse_command g command = some (g, [unknownMsg (pyStrip (pyLower command))]) := by
  unfold parse_command parse_command_core
  simp only [hparts]
  rw [if_neg h1, if_neg h2, if_neg h3]

/-- C9 witness: the two-token input `dance xyzzy` is unrecognized; the
reply echoes it with the hint and the state is unchanged. -/
theorem unrecognized_input_echoes_normalized_witness :
    parse_command initState "dance xyzzy" =
      some (initState, [unknownMsg (pyStrip (pyLower "dance xyzzy"))]) :=
  unrecognized_input_echoes_normalized initState "dance xyzzy" "dance" ["xyzzy"]
    (by decide) (by decide) (by decide) (by decide)

/-- C9 counterexample: for the raw input `DANCE` the emitted message
contains the lower-cased `dance` but not the original input `DANCE` — the
code echoes the normalized command, not the original one. -/
theorem unrecognized_echo_not_original :
    parse_command initState "DANCE" = some (initState, [unknownMsg "dance"]) ∧
    strContainsSub (unknownMsg "dance") "DANCE" = false ∧
    strContainsSub (unknownMsg "dance") "dance" = true :=
  ⟨by decide, by decide, by decide⟩

end AdventureGame

/-- A move from a room of a closed world never raises: either the
direction is rejected with the state unchanged, or the lookup
`self.rooms[next_room_key]` succeeds and the new current room is again a
room stored in the unchanged world mapping. -/
theorem AdventureGame.handle_move_stays_in_world (g : AdventureGame.GameState) (d : String)
    (hc : AdventureGame.worldClosed g.rooms = true)
    (hm : AdventureGame.roomInWorld g.rooms g.current_room = true) :
    ∃ p, AdventureGame.handle_move g d = some p ∧ p.1.rooms = g.rooms ∧
      AdventureGame.roomInWorld g.rooms p.1.current_room = true := by
  cases hconn : lookupConn g.current_room.connections d with
  | none =>
    refine ⟨(g, [AdventureGame.cannotGoMsg]), ?_, rfl, hm⟩
    simp [AdventureGame.handle_move, hconn, AdventureGame.cannotGoMsg]
  | some k =>
    have hpr : ∃ pr ∈ g.current_room.connections, pr.2 = k := by
      unfold lookupConn at hconn
      cases hf : g.current_room.connections.find? fun p => p.1 = d with
      | none => rw [hf] at hconn; simp at hconn
      | some pr =>
        rw [hf] at hconn
        simp at hconn
        exact ⟨pr, List.mem_of_find?_eq_some hf, hconn⟩
    obtain ⟨pr, hprmem, hprk⟩ := hpr
    obtain ⟨kr0, hkr0mem, hkr0⟩ := List.any_eq_true.mp hm
    have hcur : kr0.2 = g.current_room := by simpa using hkr0
    have hall := List.all_eq_true.mp hc kr0 hkr0mem
    have htgt := List.all_eq_true.mp hall pr (hcur ▸ hprmem)
    obtain ⟨kr2, hkr2mem, hkr2⟩ := List.any_eq_true.mp htgt
    have hkey : kr2.1 = k := by
      have := of_decide_eq_true hkr2
      rw [this, hprk]
    have hfind : (g.rooms.find? fun p => p.1 = k).isSome := by
      rw [List.find?_isSome]
      exact ⟨kr2, hkr2mem, by simp [hkey]⟩
    obtain ⟨q, hq⟩ := Option.isSome_iff_exists.mp hfind
    have hget : AdventureGame.getRoom g.rooms k = some q.2 := by
      unfold AdventureGame.getRoom
      rw [hq]
      rfl
    have hqmem : q ∈ g.rooms := List.mem_of_find?_eq_some hq
    have hqin : AdventureGame.roomInWorld g.rooms q.2 = true :=
      List.any_eq_true.mpr ⟨q, hqmem, by simp⟩
    cases he : q.2.is_end with
    | true =>
      refine ⟨({ g with current_room := q.2, is_running := false },
        ["\n" ++ q.2.get_description]), ?_, rfl, hqin⟩
      simp [AdventureGame.handle_move, hconn, hget, he]
    | false =>
      refine ⟨({ g with current_room := q.2 },
        ["\n" ++ q.2.get_description]), ?_, rfl, hqin⟩
      simp [AdventureGame.handle_move, hconn, hget, he, AdventureGame.look]

/-- C10: processing any raw command line from a state whose world is the
one `_create_world` builds and whose current room is stored in that world
never raises a `KeyError` and yields a state whose current room is again
one of the rooms stored in the unchanged world mapping. -/
theorem AdventureGame.current_room_stays_in_world (g : AdventureGame.GameState) (cmd : String)
    (hr : g.rooms = AdventureGame.create_world)
    (hm : AdventureGame.roomInWorld g.rooms g.current_room = true) :
    ∃ p, AdventureGame.parse_command g cmd = some p ∧
      p.1.rooms = AdventureGame.create_world ∧
      AdventureGame.roomInWorld p.1.rooms p.1.current_room = true := by
  have hc : AdventureGame.worldClosed g.rooms = true := by rw [hr]; decide
  unfold AdventureGame.parse_command AdventureGame.parse_command_core
  cases hw : pyWords (pyStrip (pyLower cmd)) with
  | nil =>
    exact ⟨(g, []), rfl, hr, hr ▸ hm⟩
  | cons v rest =>
    dsimp only
    by_cases h1 : v = "north" ∨ v = "south" ∨ v = "east" ∨ v = "west" ∨ v = "go"
    · rw [if_pos h1]
      obtain ⟨p, hp, hrooms, hin⟩ := AdventureGame.handle_move_stays_in_world g
        (if v = "go" then (v :: rest).getLast (by simp) else v) hc hm
      exact ⟨p, hp, hrooms ▸ hr, hrooms ▸ hin⟩
    · rw [if_neg h1]
      by_cases h2 : v = "quit" ∨ v = "exit"
      · rw [if_pos h2]
        exact ⟨AdventureGame.quit_game g, rfl, hr, hr ▸ hm⟩
      · rw [if_neg h2]
        by_cases h3 : v = "look" ∨ v = "l"
        · rw [if_pos h3]
          exact ⟨AdventureGame.look g, rfl, hr, hr ▸ hm⟩
        · rw [if_neg h3]
          exact ⟨(g, [AdventureGame.unknownMsg (pyStrip (pyLower cmd))]), rfl, hr, hr ▸ hm⟩

/-- C10 witness: from the initial state (current room is the stored
Entrance Hall) the command `north` is processed without error and leaves
the current room inside the world mapping. -/
theorem AdventureGame.current_room_stays_in_world_witness :
    ∃ p, AdventureGame.parse_command AdventureGame.initState "north" = some p ∧
      p.1.rooms = AdventureGame.create_world ∧
      AdventureGame.roomInWorld p.1.rooms p.1.current_room = true :=
  AdventureGame.current_room_stays_in_world AdventureGame.initState "north" rfl (by decide)
